import Mathlib

/-!
Verification of the socialist-trade-evaluator repository (src/starter.py).

Numeric game statistics are modelled as rationals (ℚ): the Python code does
exact-looking arithmetic on small floats and the spec speaks of exact sums,
quotients and comparisons. Fallible code is modelled with Except/Option.
-/

namespace TradeEval

/-- One game's statistics, as read by `_last_n_averages_by_id` from a
game-log row (fields FGM, FGA, FTM, FTA, PTS, REB, AST, STL, BLK, TOV, FG3M). -/
structure GameRecord where
  fgm : ℚ
  fga : ℚ
  ftm : ℚ
  fta : ℚ
  pts : ℚ
  reb : ℚ
  ast : ℚ
  stl : ℚ
  blk : ℚ
  tov : ℚ
  fg3m : ℚ
  deriving Repr, DecidableEq

/-- The dictionary returned by `_last_n_averages_by_id` (src/starter.py:88-106). -/
structure PlayerWindowSummary where
  games_used : ℕ
  pts : ℚ
  reb : ℚ
  ast : ℚ
  stl : ℚ
  blk : ℚ
  tov : ℚ
  threes : ℚ
  fgm_pg : ℚ
  fga_pg : ℚ
  ftm_pg : ℚ
  fta_pg : ℚ
  fg_pct : ℚ
  ft_pct : ℚ
  deriving Repr, DecidableEq

/-- Sum of a field over a list of game records (Python `sum(float(g[K]) for g in recent)`). -/
def sumBy (f : GameRecord → ℚ) (gs : List GameRecord) : ℚ :=
  (gs.map f).sum

/-- The active window: `games[:n] if len(games) >= n else games` (src/starter.py:69). -/
def activeWindow (games : List GameRecord) (n : ℕ) : List GameRecord :=
  if games.length ≥ n then games.take n else games

/-- Embedding of `_last_n_averages_by_id` (src/starter.py:59-106) after the
game log has been fetched and parsed into records.  Counting sums are divided
by `games_count = max(1, len(recent))`; percentages are attempt-weighted with
a truthiness guard (`(fgm / fga) if fga else 0.0`). -/
def lastNAverages (games : List GameRecord) (n : ℕ) : PlayerWindowSummary :=
  let recent := activeWindow games n
  let fgm := sumBy (·.fgm) recent
  let fga := sumBy (·.fga) recent
  let ftm := sumBy (·.ftm) recent
  let fta := sumBy (·.fta) recent
  let pts := sumBy (·.pts) recent
  let reb := sumBy (·.reb) recent
  let ast := sumBy (·.ast) recent
  let stl := sumBy (·.stl) recent
  let blk := sumBy (·.blk) recent
  let tov := sumBy (·.tov) recent
  let threes_made := sumBy (·.fg3m) recent
  let games_count : ℚ := (max 1 recent.length : ℕ)
  { games_used := recent.length
    pts := pts / games_count
    reb := reb / games_count
    ast := ast / games_count
    stl := stl / games_count
    blk := blk / games_count
    tov := tov / games_count
    threes := threes_made / games_count
    fgm_pg := fgm / games_count
    fga_pg := fga / games_count
    ftm_pg := ftm / games_count
    fta_pg := fta / games_count
    fg_pct := if fga = 0 then 0 else fgm / fga
    ft_pct := if fta = 0 then 0 else ftm / fta }

/-- The running `totals` dictionary of `compute_team_stats` (src/starter.py:207-210). -/
structure TeamTotals where
  pts : ℚ
  reb : ℚ
  ast : ℚ
  stl : ℚ
  blk : ℚ
  tov : ℚ
  threes : ℚ
  fgm_pg : ℚ
  fga_pg : ℚ
  ftm_pg : ℚ
  fta_pg : ℚ
  deriving Repr, DecidableEq

/-- The dictionary returned by `compute_team_stats` after the makes/attempts
keys are dropped and the two percentages added (src/starter.py:222-225). -/
structure TeamSummary where
  pts : ℚ
  reb : ℚ
  ast : ℚ
  stl : ℚ
  blk : ℚ
  tov : ℚ
  threes : ℚ
  fg_pct : ℚ
  ft_pct : ℚ
  deriving Repr, DecidableEq

/-- The all-zero initial `totals` (src/starter.py:207-210). -/
def teamTotalsZero : TeamTotals :=
  ⟨0, 0, 0, 0, 0, 0, 0, 0, 0, 0, 0⟩

/-- One iteration of the accumulation loop body: `totals[k] += float(avgs.get(k, 0.0))`
for the eleven keys (src/starter.py:217-218). -/
def addSummary (t : TeamTotals) (a : PlayerWindowSummary) : TeamTotals :=
  { pts := t.pts + a.pts
    reb := t.reb + a.reb
    ast := t.ast + a.ast
    stl := t.stl + a.stl
    blk := t.blk + a.blk
    tov := t.tov + a.tov
    threes := t.threes + a.threes
    fgm_pg := t.fgm_pg + a.fgm_pg
    fga_pg := t.fga_pg + a.fga_pg
    ftm_pg := t.ftm_pg + a.ftm_pg
    fta_pg := t.fta_pg + a.fta_pg }

/-- The roster loop of `compute_team_stats` (src/starter.py:211-218): each
player's averages are fetched; on failure the player is skipped and its name
recorded as a warning.  `fetch` models `_last_n_averages_by_id` at the fixed
season and window (`none` = the call raised).  Accumulation is written
head-first; since rational addition is commutative and associative this equals
the source's left-to-right `+=` accumulation, and warnings keep roster order. -/
def teamLoop (fetch : ℕ → Option PlayerWindowSummary) :
    List (ℕ × String) → TeamTotals × List String
  | [] => (teamTotalsZero, [])
  | (pid, name) :: rest =>
    let r := teamLoop fetch rest
    match fetch pid with
    | some avgs => (addSummary r.1 avgs, r.2)
    | none => (r.1, name :: r.2)

/-- Embedding of `compute_team_stats` (src/starter.py:203-225): accumulate
totals over the roster, then compute attempt-weighted team percentages with
the truthiness guard `(x / y) if y else 0.0`.  Returns the team summary and
the list of warned-about (failed) player names. -/
def compute_team_stats (fetch : ℕ → Option PlayerWindowSummary)
    (roster : List (ℕ × String)) : TeamSummary × List String :=
  let r := teamLoop fetch roster
  let totals := r.1
  let fg_pct := if totals.fga_pg = 0 then 0 else totals.fgm_pg / totals.fga_pg
  let ft_pct := if totals.fta_pg = 0 then 0 else totals.ftm_pg / totals.fta_pg
  (⟨totals.pts, totals.reb, totals.ast, totals.stl, totals.blk, totals.tov,
    totals.threes, fg_pct, ft_pct⟩, r.2)

/-- The per-category `lead` computation of `print_comparison`
(src/starter.py:246-249): for the "TOV" category the lower value leads,
otherwise the higher value leads; exact equality yields the string "=". -/
def categoryLead (team1_name team2_name : String) (c : String) (v1 v2 : ℚ) : String :=
  if c = "TOV" then
    if v1 < v2 then team1_name else if v2 < v1 then team2_name else "="
  else
    if v1 > v2 then team1_name else if v2 > v1 then team2_name else "="

/-- A candidate returned by the static player search. -/
structure Player where
  id : ℕ
  full_name : String
  deriving Repr, DecidableEq

/-- Python's `str.lower()`: lower-case every character.  (Extensionally the
same as `String.toLower`, written over the character list so that it reduces
in the kernel.) -/
def lowerStr (s : String) : String :=
  ⟨s.data.map Char.toLower⟩

/-- Embedding of `find_player_id` (src/starter.py:6-14), with the candidate
list returned by `find_players_by_full_name` passed explicitly: empty list
raises ValueError; otherwise the first exact case-insensitive full-name match
is preferred, else the first candidate. -/
def find_player_id (cands : List Player) (full_name : String) : Except String ℕ :=
  match cands with
  | [] => .error ("No player found for " ++ full_name)
  | m0 :: _ =>
    match cands.find? (fun m => lowerStr m.full_name == lowerStr full_name) with
    | some m => .ok m.id
    | none => .ok m0.id

/-- A parsed game-log row: a Python dict of column name to value. -/
def Row : Type := List (String × ℚ)

/-- One result set of the raw-dict response shape: `headers` and `rowSet`
(src/starter.py:35-39). -/
structure ResultSet where
  headers : List String
  rowSet : List (List ℚ)

/-- The value `rs = rd.get("resultSets") or rd.get("resultSet")` as classified
by the isinstance tests of src/starter.py:34-41: a list, a dict, or anything
else (including `get_dict` raising). -/
inductive RawShape
  | absent : RawShape
  | asList : List ResultSet → RawShape
  | asDict : ResultSet → RawShape

/-- The three shapes a `PlayerGameLog` response object can expose.
`normalized = some rows` models `get_normalized_dict()` returning a dict whose
"PlayerGameLog" key holds a list; `none` models an exception, a non-dict,
a missing key or a non-list value.  `frames = some dfs` models
`get_data_frames()` returning the list `dfs` of dataframes (each given by its
records); `none` models an exception. -/
structure GameLogResponse where
  normalized : Option (List Row)
  raw : RawShape
  frames : Option (List (List Row))

/-- The message of the terminal RuntimeError of `_extract_gamelog_rows`
(src/starter.py:56). -/
def unparseableMsg : String :=
  "Unable to parse PlayerGameLog response (no resultSets/normalized data)."

/-- Embedding of `_extract_gamelog_rows` (src/starter.py:16-56): try the
normalized dict, then the raw dict (accepted only when `headers` and `rowSet`
are BOTH non-empty, Python truthiness of `if headers and rowset`), then the
first DataFrame when the frame list is non-empty, else raise RuntimeError.
`dict(zip(headers, row))` becomes `headers.zip row`. -/
def extract_gamelog_rows (gl : GameLogResponse) : Except String (List Row) :=
  match gl.normalized with
  | some rows => .ok rows
  | none =>
    let hr : List String × List (List ℚ) :=
      match gl.raw with
      | .asList (r0 :: _) => (r0.headers, r0.rowSet)
      | .asList [] => ([], [])
      | .asDict r => (r.headers, r.rowSet)
      | .absent => ([], [])
    if hr.1 ≠ [] ∧ hr.2 ≠ [] then
      .ok (hr.2.map (fun row => hr.1.zip row))
    else
      match gl.frames with
      | some (df :: _) => .ok df
      | some [] => .error unparseableMsg
      | none => .error unparseableMsg

/-- All eleven statistic fields of a game record are non-negative. -/
def NonnegRecord (g : GameRecord) : Prop :=
  0 ≤ g.fgm ∧ 0 ≤ g.fga ∧ 0 ≤ g.ftm ∧ 0 ≤ g.fta ∧ 0 ≤ g.pts ∧ 0 ≤ g.reb ∧
  0 ≤ g.ast ∧ 0 ≤ g.stl ∧ 0 ≤ g.blk ∧ 0 ≤ g.tov ∧ 0 ≤ g.fg3m

instance : DecidablePred NonnegRecord := fun g => by
  unfold NonnegRecord; infer_instance

/-- A player window summary whose only nonzero figures are the per-game
field-goal makes/attempts: used as a concrete aggregation input. -/
def mkShooter (fgm fga : ℚ) : PlayerWindowSummary :=
  ⟨1, 0, 0, 0, 0, 0, 0, 0, fgm, fga, 0, 0, if fga = 0 then 0 else fgm / fga, 0⟩

/-- Concrete fetch for the two-player example of the spec: player 1 shoots
3/10 field goals per game, player 2 shoots 1/2. -/
def fetchTwoShooters : ℕ → Option PlayerWindowSummary :=
  fun pid => if pid = 1 then some (mkShooter 3 10)
             else if pid = 2 then some (mkShooter 1 2) else none

/-- A game record with two field goals made on one attempt (all fields
non-negative, but makes exceed attempts). -/
def overMakesGame : GameRecord :=
  ⟨2, 1, 0, 0, 4, 0, 0, 0, 0, 0, 0⟩

/-! ### Helper lemmas -/

/-- Both branches of the window slice agree with `List.take`. -/
theorem activeWindow_eq_take (games : List GameRecord) (n : ℕ) :
    activeWindow games n = games.take n := by
  unfold activeWindow
  split
  · rfl
  · next h =>
    exact (List.take_of_length_le (Nat.le_of_not_le h)).symm

theorem length_activeWindow (games : List GameRecord) (n : ℕ) :
    (activeWindow games n).length = min n games.length := by
  rw [activeWindow_eq_take, List.length_take]

/-- Any additive field of the team totals equals the sum of the corresponding
summary field over the successfully fetched players. -/
theorem teamLoop_field (fetch : ℕ → Option PlayerWindowSummary)
    (f : TeamTotals → ℚ) (g : PlayerWindowSummary → ℚ)
    (hz : f teamTotalsZero = 0)
    (ha : ∀ t a, f (addSummary t a) = f t + g a) :
    ∀ roster : List (ℕ × String),
      f (teamLoop fetch roster).1 =
        ((roster.filterMap (fun p => fetch p.1)).map g).sum := by
  intro roster
  induction roster with
  | nil => simpa [teamLoop] using hz
  | cons p rest ih =>
    obtain ⟨pid, name⟩ := p
    cases hf : fetch pid with
    | none => simp [teamLoop, hf, ih]
    | some a => simp [teamLoop, hf, ha, ih]; ring

/-- The warning list is exactly the names of the players whose fetch failed,
in roster order. -/
theorem teamLoop_warnings (fetch : ℕ → Option PlayerWindowSummary) :
    ∀ roster : List (ℕ × String),
      (teamLoop fetch roster).2 =
        (roster.filter (fun p => (fetch p.1).isNone)).map (fun p => p.2) := by
  intro roster
  induction roster with
  | nil => simp [teamLoop]
  | cons p rest ih =>
    obtain ⟨pid, name⟩ := p
    cases hf : fetch pid with
    | none => simp [teamLoop, hf, ih]
    | some a => simp [teamLoop, hf, ih]

theorem sumBy_nonneg (f : GameRecord → ℚ) (gs : List GameRecord)
    (h : ∀ g ∈ gs, 0 ≤ f g) : 0 ≤ sumBy f gs := by
  unfold sumBy
  induction gs with
  | nil => simp
  | cons g rest ih =>
    simp only [List.map_cons, List.sum_cons]
    have hg := h g (List.mem_cons_self g rest)
    have hr := ih (fun x hx => h x (List.mem_cons_of_mem g hx))
    linarith

theorem sumBy_le_sumBy (f g : GameRecord → ℚ) (gs : List GameRecord)
    (h : ∀ x ∈ gs, f x ≤ g x) : sumBy f gs ≤ sumBy g gs := by
  unfold sumBy
  induction gs with
  | nil => simp
  | cons x rest ih =>
    simp only [List.map_cons, List.sum_cons]
    have hx := h x (List.mem_cons_self x rest)
    have hr := ih (fun y hy => h y (List.mem_cons_of_mem x hy))
    linarith

theorem mem_activeWindow (games : List GameRecord) (n : ℕ) (g : GameRecord)
    (hg : g ∈ activeWindow games n) : g ∈ games := by
  rw [activeWindow_eq_take] at hg
  exact List.take_subset n games hg

/-! ### Claims -/

/-- Claim C2: for every non-empty game log and window size N ≥ 1, the
Averaging Engine reports games_used = min(N, len(records)); the active window
is the first min(N, len(records)) records; an empty input yields an empty
active window. -/
theorem averaging_window_games_used (games : List GameRecord) (n : ℕ)
    (h1 : games ≠ []) (h2 : 1 ≤ n) :
    (lastNAverages games n).games_used = min n games.length ∧
    activeWindow games n = games.take (min n games.length) ∧
    activeWindow ([] : List GameRecord) n = [] := by
  refine ⟨?_, ?_, ?_⟩
  · show (activeWindow games n).length = min n games.length
    exact length_activeWindow games n
  · rw [activeWindow_eq_take]
    rcases le_or_lt n games.length with h | h
    · rw [min_eq_left h]
    · rw [min_eq_right (le_of_lt h), List.take_length,
        List.take_of_length_le (le_of_lt h)]
  · simp [activeWindow]

theorem averaging_window_games_used_witness :
    ([⟨1, 2, 1, 2, 5, 3, 2, 1, 0, 2, 1⟩] : List GameRecord) ≠ [] ∧ 1 ≤ 10 ∧
    ((lastNAverages [⟨1, 2, 1, 2, 5, 3, 2, 1, 0, 2, 1⟩] 10).games_used =
       min 10 ([⟨1, 2, 1, 2, 5, 3, 2, 1, 0, 2, 1⟩] : List GameRecord).length ∧
     activeWindow [⟨1, 2, 1, 2, 5, 3, 2, 1, 0, 2, 1⟩] 10 =
       ([⟨1, 2, 1, 2, 5, 3, 2, 1, 0, 2, 1⟩] : List GameRecord).take
         (min 10 ([⟨1, 2, 1, 2, 5, 3, 2, 1, 0, 2, 1⟩] : List GameRecord).length) ∧
     activeWindow ([] : List GameRecord) 10 = []) :=
  ⟨by decide, by decide,
   averaging_window_games_used [⟨1, 2, 1, 2, 5, 3, 2, 1, 0, 2, 1⟩] 10
     (by decide) (by decide)⟩

/-- Claim C3: each per-game counting-stat average and each makes/attempts
per-game figure equals the sum of that stat over the active window divided by
max(1, games_used); an empty log yields games_used = 0 with all per-game
averages 0. -/
theorem per_game_averages_sum_div (games : List GameRecord) (n : ℕ) :
    ((lastNAverages games n).pts =
       ((activeWindow games n).map (·.pts)).sum /
         ((max 1 (lastNAverages games n).games_used : ℕ) : ℚ) ∧
     (lastNAverages games n).reb =
       ((activeWindow games n).map (·.reb)).sum /
         ((max 1 (lastNAverages games n).games_used : ℕ) : ℚ) ∧
     (lastNAverages games n).ast =
       ((activeWindow games n).map (·.ast)).sum /
         ((max 1 (lastNAverages games n).games_used : ℕ) : ℚ) ∧
     (lastNAverages games n).stl =
       ((activeWindow games n).map (·.stl)).sum /
         ((max 1 (lastNAverages games n).games_used : ℕ) : ℚ) ∧
     (lastNAverages games n).blk =
       ((activeWindow games n).map (·.blk)).sum /
         ((max 1 (lastNAverages games n).games_used : ℕ) : ℚ) ∧
     (lastNAverages games n).tov =
       ((activeWindow games n).map (·.tov)).sum /
         ((max 1 (lastNAverages games n).games_used : ℕ) : ℚ) ∧
     (lastNAverages games n).threes =
       ((activeWindow games n).map (·.fg3m)).sum /
         ((max 1 (lastNAverages games n).games_used : ℕ) : ℚ) ∧
     (lastNAverages games n).fgm_pg =
       ((activeWindow games n).map (·.fgm)).sum /
         ((max 1 (lastNAverages games n).games_used : ℕ) : ℚ) ∧
     (lastNAverages games n).fga_pg =
       ((activeWindow games n).map (·.fga)).sum /
         ((max 1 (lastNAverages games n).games_used : ℕ) : ℚ) ∧
     (lastNAverages games n).ftm_pg =
       ((activeWindow games n).map (·.ftm)).sum /
         ((max 1 (lastNAverages games n).games_used : ℕ) : ℚ) ∧
     (lastNAverages games n).fta_pg =
       ((activeWindow games n).map (·.fta)).sum /
         ((max 1 (lastNAverages games n).games_used : ℕ) : ℚ)) ∧
    ((lastNAverages ([] : List GameRecord) n).games_used = 0 ∧
     lastNAverages ([] : List GameRecord) n =
       ⟨0, 0, 0, 0, 0, 0, 0, 0, 0, 0, 0, 0, 0, 0⟩) := by
  constructor
  · exact ⟨rfl, rfl, rfl, rfl, rfl, rfl, rfl, rfl, rfl, rfl, rfl⟩
  · constructor
    · show (activeWindow ([] : List GameRecord) n).length = 0
      simp [activeWindow]
    · simp [lastNAverages, activeWindow, sumBy]

/-- Claim C4: each player-level shooting percentage equals makes_sum over
attempts_sum when attempts_sum is positive, and is exactly 0 when
attempts_sum is zero. -/
theorem player_pct_zero_attempts_guard (games : List GameRecord) (n : ℕ) :
    (0 < sumBy (·.fga) (activeWindow games n) →
      (lastNAverages games n).fg_pct =
        sumBy (·.fgm) (activeWindow games n) / sumBy (·.fga) (activeWindow games n)) ∧
    (sumBy (·.fga) (activeWindow games n) = 0 → (lastNAverages games n).fg_pct = 0) ∧
    (0 < sumBy (·.fta) (activeWindow games n) →
      (lastNAverages games n).ft_pct =
        sumBy (·.ftm) (activeWindow games n) / sumBy (·.fta) (activeWindow games n)) ∧
    (sumBy (·.fta) (activeWindow games n) = 0 → (lastNAverages games n).ft_pct = 0) := by
  refine ⟨fun h => ?_, fun h => ?_, fun h => ?_, fun h => ?_⟩
  · show (if sumBy (·.fga) (activeWindow games n) = 0 then 0
          else sumBy (·.fgm) (activeWindow games n) /
            sumBy (·.fga) (activeWindow games n)) = _
    rw [if_neg h.ne']
  · show (if sumBy (·.fga) (activeWindow games n) = 0 then (0 : ℚ)
          else sumBy (·.fgm) (activeWindow games n) /
            sumBy (·.fga) (activeWindow games n)) = 0
    rw [if_pos h]
  · show (if sumBy (·.fta) (activeWindow games n) = 0 then 0
          else sumBy (·.ftm) (activeWindow games n) /
            sumBy (·.fta) (activeWindow games n)) = _
    rw [if_neg h.ne']
  · show (if sumBy (·.fta) (activeWindow games n) = 0 then (0 : ℚ)
          else sumBy (·.ftm) (activeWindow games n) /
            sumBy (·.fta) (activeWindow games n)) = 0
    rw [if_pos h]

theorem player_pct_zero_attempts_guard_witness :
    (lastNAverages [⟨2, 5, 1, 2, 9, 3, 2, 1, 0, 2, 1⟩] 10).fg_pct =
      sumBy (·.fgm) (activeWindow [⟨2, 5, 1, 2, 9, 3, 2, 1, 0, 2, 1⟩] 10) /
        sumBy (·.fga) (activeWindow [⟨2, 5, 1, 2, 9, 3, 2, 1, 0, 2, 1⟩] 10) ∧
    (lastNAverages ([] : List GameRecord) 10).ft_pct = 0 :=
  ⟨(player_pct_zero_attempts_guard [⟨2, 5, 1, 2, 9, 3, 2, 1, 0, 2, 1⟩] 10).1
     (by norm_num [sumBy, activeWindow]),
   (player_pct_zero_attempts_guard ([] : List GameRecord) 10).2.2.2
     (by norm_num [sumBy, activeWindow])⟩

/-- Claim C5 counterexample: a single game with all fields non-negative but
two makes on one attempt drives FG% to 2, outside [0, 1], so non-negativity
of makes and attempts alone does not bound the percentages. -/
theorem pct_range_counterexample :
    NonnegRecord overMakesGame ∧
    ¬ ((lastNAverages [overMakesGame] 10).fg_pct ≤ 1) := by
  norm_num [NonnegRecord, overMakesGame, lastNAverages, activeWindow, sumBy]

/-- Claim C5 amended: for every game log whose makes and attempts are all
non-negative AND whose makes never exceed the corresponding attempts, FG% and
FT% lie in [0, 1] and every per-game average field is ≥ 0. -/
theorem pct_range_amended (games : List GameRecord) (n : ℕ)
    (hn : ∀ g ∈ games, NonnegRecord g)
    (hs : ∀ g ∈ games, g.fgm ≤ g.fga ∧ g.ftm ≤ g.fta) :
    (0 ≤ (lastNAverages games n).fg_pct ∧ (lastNAverages games n).fg_pct ≤ 1) ∧
    (0 ≤ (lastNAverages games n).ft_pct ∧ (lastNAverages games n).ft_pct ≤ 1) ∧
    0 ≤ (lastNAverages games n).pts ∧
    0 ≤ (lastNAverages games n).reb ∧
    0 ≤ (lastNAverages games n).ast ∧
    0 ≤ (lastNAverages games n).stl ∧
    0 ≤ (lastNAverages games n).blk ∧
    0 ≤ (lastNAverages games n).tov ∧
    0 ≤ (lastNAverages games n).threes ∧
    0 ≤ (lastNAverages games n).fgm_pg ∧
    0 ≤ (lastNAverages games n).fga_pg ∧
    0 ≤ (lastNAverages games n).ftm_pg ∧
    0 ≤ (lastNAverages games n).fta_pg := by
  have hw : ∀ g ∈ activeWindow games n, NonnegRecord g :=
    fun g hg => hn g (mem_activeWindow games n g hg)
  have hsw : ∀ g ∈ activeWindow games n, g.fgm ≤ g.fga ∧ g.ftm ≤ g.fta :=
    fun g hg => hs g (mem_activeWindow games n g hg)
  have hdiv : (0 : ℚ) ≤ ((max 1 (activeWindow games n).length : ℕ) : ℚ) := by
    positivity
  have pct_bounds : ∀ (fm fa : GameRecord → ℚ),
      (∀ g ∈ activeWindow games n, 0 ≤ fm g) →
      (∀ g ∈ activeWindow games n, 0 ≤ fa g) →
      (∀ g ∈ activeWindow games n, fm g ≤ fa g) →
      0 ≤ (if sumBy fa (activeWindow games n) = 0 then (0 : ℚ)
           else sumBy fm (activeWindow games n) / sumBy fa (activeWindow games n)) ∧
      (if sumBy fa (activeWindow games n) = 0 then (0 : ℚ)
       else sumBy fm (activeWindow games n) / sumBy fa (activeWindow games n)) ≤ 1 := by
    intro fm fa hm ha hle
    have hm0 := sumBy_nonneg fm (activeWindow games n) hm
    have ha0 := sumBy_nonneg fa (activeWindow games n) ha
    have hle0 := sumBy_le_sumBy fm fa (activeWindow games n) hle
    split
    · exact ⟨le_refl 0, by norm_num⟩
    · next hne =>
      have hpos : 0 < sumBy fa (activeWindow games n) :=
        lt_of_le_of_ne ha0 (Ne.symm hne)
      exact ⟨div_nonneg hm0 ha0, (div_le_one hpos).mpr hle0⟩
  have avg_nonneg : ∀ (f : GameRecord → ℚ),
      (∀ g ∈ activeWindow games n, 0 ≤ f g) →
      0 ≤ sumBy f (activeWindow games n) /
            ((max 1 (activeWindow games n).length : ℕ) : ℚ) := by
    intro f hf
    exact div_nonneg (sumBy_nonneg f (activeWindow games n) hf) hdiv
  refine ⟨?_, ?_, ?_, ?_, ?_, ?_, ?_, ?_, ?_, ?_, ?_, ?_, ?_⟩
  · exact pct_bounds (·.fgm) (·.fga) (fun g hg => (hw g hg).1)
      (fun g hg => (hw g hg).2.1) (fun g hg => (hsw g hg).1)
  · exact pct_bounds (·.ftm) (·.fta) (fun g hg => (hw g hg).2.2.1)
      (fun g hg => (hw g hg).2.2.2.1) (fun g hg => (hsw g hg).2)
  · exact avg_nonneg (·.pts) (fun g hg => (hw g hg).2.2.2.2.1)
  · exact avg_nonneg (·.reb) (fun g hg => (hw g hg).2.2.2.2.2.1)
  · exact avg_nonneg (·.ast) (fun g hg => (hw g hg).2.2.2.2.2.2.1)
  · exact avg_nonneg (·.stl) (fun g hg => (hw g hg).2.2.2.2.2.2.2.1)
  · exact avg_nonneg (·.blk) (fun g hg => (hw g hg).2.2.2.2.2.2.2.2.1)
  · exact avg_nonneg (·.tov) (fun g hg => (hw g hg).2.2.2.2.2.2.2.2.2.1)
  · exact avg_nonneg (·.fg3m) (fun g hg => (hw g hg).2.2.2.2.2.2.2.2.2.2)
  · exact avg_nonneg (·.fgm) (fun g hg => (hw g hg).1)
  · exact avg_nonneg (·.fga) (fun g hg => (hw g hg).2.1)
  · exact avg_nonneg (·.ftm) (fun g hg => (hw g hg).2.2.1)
  · exact avg_nonneg (·.fta) (fun g hg => (hw g hg).2.2.2.1)

theorem pct_range_amended_witness :
    (0 ≤ (lastNAverages [⟨1, 2, 1, 2, 5, 3, 2, 1, 0, 2, 1⟩] 10).fg_pct ∧
     (lastNAverages [⟨1, 2, 1, 2, 5, 3, 2, 1, 0, 2, 1⟩] 10).fg_pct ≤ 1) ∧
    (0 ≤ (lastNAverages [⟨1, 2, 1, 2, 5, 3, 2, 1, 0, 2, 1⟩] 10).ft_pct ∧
     (lastNAverages [⟨1, 2, 1, 2, 5, 3, 2, 1, 0, 2, 1⟩] 10).ft_pct ≤ 1) ∧
    0 ≤ (lastNAverages [⟨1, 2, 1, 2, 5, 3, 2, 1, 0, 2, 1⟩] 10).pts ∧
    0 ≤ (lastNAverages [⟨1, 2, 1, 2, 5, 3, 2, 1, 0, 2, 1⟩] 10).reb ∧
    0 ≤ (lastNAverages [⟨1, 2, 1, 2, 5, 3, 2, 1, 0, 2, 1⟩] 10).ast ∧
    0 ≤ (lastNAverages [⟨1, 2, 1, 2, 5, 3, 2, 1, 0, 2, 1⟩] 10).stl ∧
    0 ≤ (lastNAverages [⟨1, 2, 1, 2, 5, 3, 2, 1, 0, 2, 1⟩] 10).blk ∧
    0 ≤ (lastNAverages [⟨1, 2, 1, 2, 5, 3, 2, 1, 0, 2, 1⟩] 10).tov ∧
    0 ≤ (lastNAverages [⟨1, 2, 1, 2, 5, 3, 2, 1, 0, 2, 1⟩] 10).threes ∧
    0 ≤ (lastNAverages [⟨1, 2, 1, 2, 5, 3, 2, 1, 0, 2, 1⟩] 10).fgm_pg ∧
    0 ≤ (lastNAverages [⟨1, 2, 1, 2, 5, 3, 2, 1, 0, 2, 1⟩] 10).fga_pg ∧
    0 ≤ (lastNAverages [⟨1, 2, 1, 2, 5, 3, 2, 1, 0, 2, 1⟩] 10).ftm_pg ∧
    0 ≤ (lastNAverages [⟨1, 2, 1, 2, 5, 3, 2, 1, 0, 2, 1⟩] 10).fta_pg :=
  pct_range_amended [⟨1, 2, 1, 2, 5, 3, 2, 1, 0, 2, 1⟩] 10
    (by norm_num [NonnegRecord]) (by norm_num)

/-- Claim C1: team FG% and FT% are the sum of the included players' per-game
makes divided by the sum of their per-game attempts (one division after
summing); for per-game lines 3/10 and 1/2 the team FG% is 4/12 = 1/3, not
the 2/5 that averaging the two percentages would give. -/
theorem team_shooting_pct_attempt_weighted
    (fetch : ℕ → Option PlayerWindowSummary) (roster : List (ℕ × String)) :
    ((compute_team_stats fetch roster).1.fg_pct =
       (if ((roster.filterMap (fun p => fetch p.1)).map (·.fga_pg)).sum = 0 then 0
        else ((roster.filterMap (fun p => fetch p.1)).map (·.fgm_pg)).sum /
          ((roster.filterMap (fun p => fetch p.1)).map (·.fga_pg)).sum) ∧
     (compute_team_stats fetch roster).1.ft_pct =
       (if ((roster.filterMap (fun p => fetch p.1)).map (·.fta_pg)).sum = 0 then 0
        else ((roster.filterMap (fun p => fetch p.1)).map (·.ftm_pg)).sum /
          ((roster.filterMap (fun p => fetch p.1)).map (·.fta_pg)).sum)) ∧
    ((compute_team_stats fetchTwoShooters [(1, "A"), (2, "B")]).1.fg_pct = 1 / 3 ∧
     (compute_team_stats fetchTwoShooters [(1, "A"), (2, "B")]).1.fg_pct ≠ 2 / 5) := by
  have hfgm := teamLoop_field fetch (·.fgm_pg) (·.fgm_pg) rfl (fun t a => rfl) roster
  have hfga := teamLoop_field fetch (·.fga_pg) (·.fga_pg) rfl (fun t a => rfl) roster
  have hftm := teamLoop_field fetch (·.ftm_pg) (·.ftm_pg) rfl (fun t a => rfl) roster
  have hfta := teamLoop_field fetch (·.fta_pg) (·.fta_pg) rfl (fun t a => rfl) roster
  refine ⟨⟨?_, ?_⟩, ?_⟩
  · show (if (teamLoop fetch roster).1.fga_pg = 0 then (0 : ℚ)
          else (teamLoop fetch roster).1.fgm_pg / (teamLoop fetch roster).1.fga_pg) = _
    rw [hfgm, hfga]
  · show (if (teamLoop fetch roster).1.fta_pg = 0 then (0 : ℚ)
          else (teamLoop fetch roster).1.ftm_pg / (teamLoop fetch roster).1.fta_pg) = _
    rw [hftm, hfta]
  · norm_num [compute_team_stats, teamLoop, addSummary, teamTotalsZero,
      fetchTwoShooters, mkShooter]

/-- Claim C6: the per-category comparison awards the turnover category to the
team with the LOWER value, every other category to the team with the HIGHER
value, and exact equality to neither team (the explicit tie verdict "="). -/
theorem comparator_direction_rule (n1 n2 c : String) (v1 v2 : ℚ) :
    (c = "TOV" →
      (v1 < v2 → categoryLead n1 n2 c v1 v2 = n1) ∧
      (v2 < v1 → categoryLead n1 n2 c v1 v2 = n2) ∧
      (v1 = v2 → categoryLead n1 n2 c v1 v2 = "=")) ∧
    (c ≠ "TOV" →
      (v2 < v1 → categoryLead n1 n2 c v1 v2 = n1) ∧
      (v1 < v2 → categoryLead n1 n2 c v1 v2 = n2) ∧
      (v1 = v2 → categoryLead n1 n2 c v1 v2 = "=")) := by
  refine ⟨fun hc => ⟨fun h => ?_, fun h => ?_, fun h => ?_⟩,
          fun hc => ⟨fun h => ?_, fun h => ?_, fun h => ?_⟩⟩ <;>
    simp only [categoryLead, hc, if_pos, if_neg, reduceIte] <;>
    first
      | (subst h; simp [lt_irrefl])
      | simp [h, not_lt_of_gt h, lt_asymm h]

theorem comparator_direction_rule_witness :
    categoryLead "Team 1" "Team 2" "TOV" 12 10 = "Team 2" ∧
    categoryLead "Team 1" "Team 2" "PTS" 100 95 = "Team 1" ∧
    categoryLead "Team 1" "Team 2" "PTS" 7 7 = "=" :=
  ⟨((comparator_direction_rule "Team 1" "Team 2" "TOV" 12 10).1 rfl).2.1
     (by norm_num),
   ((comparator_direction_rule "Team 1" "Team 2" "PTS" 100 95).2
     (by decide)).1 (by norm_num),
   ((comparator_direction_rule "Team 1" "Team 2" "PTS" 7 7).2
     (by decide)).2.2 rfl⟩

/-- Claim C7: players whose fetch fails are excluded from every sum and their
names reported as warnings; the team summary is still produced from the
remaining players, and when no player contributed (empty roster or all
failed) every stat of the summary is zero. -/
theorem team_aggregator_failure_tolerance
    (fetch : ℕ → Option PlayerWindowSummary) (roster : List (ℕ × String)) :
    ((compute_team_stats fetch roster).2 =
       (roster.filter (fun p => (fetch p.1).isNone)).map (fun p => p.2)) ∧
    ((compute_team_stats fetch roster).1.pts =
       ((roster.filterMap (fun p => fetch p.1)).map (·.pts)).sum ∧
     (compute_team_stats fetch roster).1.reb =
       ((roster.filterMap (fun p => fetch p.1)).map (·.reb)).sum ∧
     (compute_team_stats fetch roster).1.ast =
       ((roster.filterMap (fun p => fetch p.1)).map (·.ast)).sum ∧
     (compute_team_stats fetch roster).1.stl =
       ((roster.filterMap (fun p => fetch p.1)).map (·.stl)).sum ∧
     (compute_team_stats fetch roster).1.blk =
       ((roster.filterMap (fun p => fetch p.1)).map (·.blk)).sum ∧
     (compute_team_stats fetch roster).1.tov =
       ((roster.filterMap (fun p => fetch p.1)).map (·.tov)).sum ∧
     (compute_team_stats fetch roster).1.threes =
       ((roster.filterMap (fun p => fetch p.1)).map (·.threes)).sum) ∧
    (roster.filterMap (fun p => fetch p.1) = [] →
      (compute_team_stats fetch roster).1.pts = 0 ∧
      (compute_team_stats fetch roster).1.reb = 0 ∧
      (compute_team_stats fetch roster).1.ast = 0 ∧
      (compute_team_stats fetch roster).1.stl = 0 ∧
      (compute_team_stats fetch roster).1.blk = 0 ∧
      (compute_team_stats fetch roster).1.tov = 0 ∧
      (compute_team_stats fetch roster).1.threes = 0 ∧
      (compute_team_stats fetch roster).1.fg_pct = 0 ∧
      (compute_team_stats fetch roster).1.ft_pct = 0) := by
  have hpts := teamLoop_field fetch (·.pts) (·.pts) rfl (fun t a => rfl) roster
  have hreb := teamLoop_field fetch (·.reb) (·.reb) rfl (fun t a => rfl) roster
  have hast := teamLoop_field fetch (·.ast) (·.ast) rfl (fun t a => rfl) roster
  have hstl := teamLoop_field fetch (·.stl) (·.stl) rfl (fun t a => rfl) roster
  have hblk := teamLoop_field fetch (·.blk) (·.blk) rfl (fun t a => rfl) roster
  have htov := teamLoop_field fetch (·.tov) (·.tov) rfl (fun t a => rfl) roster
  have hthr := teamLoop_field fetch (·.threes) (·.threes) rfl (fun t a => rfl) roster
  have hfga := teamLoop_field fetch (·.fga_pg) (·.fga_pg) rfl (fun t a => rfl) roster
  have hfta := teamLoop_field fetch (·.fta_pg) (·.fta_pg) rfl (fun t a => rfl) roster
  refine ⟨?_, ⟨hpts, hreb, hast, hstl, hblk, htov, hthr⟩, fun hempty => ?_⟩
  · show (teamLoop fetch roster).2 = _
    exact teamLoop_warnings fetch roster
  · rw [hempty] at hpts hreb hast hstl hblk htov hthr hfga hfta
    simp only [List.map_nil, List.sum_nil] at hpts hreb hast hstl hblk htov hthr hfga hfta
    refine ⟨hpts, hreb, hast, hstl, hblk, htov, hthr, ?_, ?_⟩
    · show (if (teamLoop fetch roster).1.fga_pg = 0 then (0 : ℚ)
            else (teamLoop fetch roster).1.fgm_pg / (teamLoop fetch roster).1.fga_pg) = 0
      rw [if_pos hfga]
    · show (if (teamLoop fetch roster).1.fta_pg = 0 then (0 : ℚ)
            else (teamLoop fetch roster).1.ftm_pg / (teamLoop fetch roster).1.fta_pg) = 0
      rw [if_pos hfta]

theorem team_aggregator_failure_tolerance_witness :
    ((compute_team_stats (fun _ => none) [(1, "Alpha")]).2 = ["Alpha"]) ∧
    ((compute_team_stats (fun _ => none) [(1, "Alpha")]).1.pts = 0 ∧
     (compute_team_stats (fun _ => none) [(1, "Alpha")]).1.reb = 0 ∧
     (compute_team_stats (fun _ => none) [(1, "Alpha")]).1.ast = 0 ∧
     (compute_team_stats (fun _ => none) [(1, "Alpha")]).1.stl = 0 ∧
     (compute_team_stats (fun _ => none) [(1, "Alpha")]).1.blk = 0 ∧
     (compute_team_stats (fun _ => none) [(1, "Alpha")]).1.tov = 0 ∧
     (compute_team_stats (fun _ => none) [(1, "Alpha")]).1.threes = 0 ∧
     (compute_team_stats (fun _ => none) [(1, "Alpha")]).1.fg_pct = 0 ∧
     (compute_team_stats (fun _ => none) [(1, "Alpha")]).1.ft_pct = 0) := by
  have h := team_aggregator_failure_tolerance (fun _ => none) [(1, "Alpha")]
  refine ⟨?_, h.2.2 (by simp)⟩
  rw [h.1]
  simp

/-- Claim C8 counterexample: on an empty game log the Averaging Engine
reports games_used = 0, so games_used is not always at least 1. -/
theorem games_used_zero_counterexample :
    ¬ (1 ≤ (lastNAverages ([] : List GameRecord) 10).games_used) := by
  show ¬ (1 ≤ (activeWindow ([] : List GameRecord) 10).length)
  simp [activeWindow]

/-- Claim C8 amended: games_used is at least 1 whenever the game log is
non-empty and the window size is at least 1; on an empty log it is 0, and it
is the DIVISOR max(1, games_used) used for the per-game averages that is
always at least 1. -/
theorem games_used_amended (games : List GameRecord) (n : ℕ)
    (h1 : games ≠ []) (h2 : 1 ≤ n) :
    1 ≤ (lastNAverages games n).games_used ∧
    (lastNAverages ([] : List GameRecord) n).games_used = 0 ∧
    1 ≤ max 1 (lastNAverages games n).games_used := by
  have hlen : (lastNAverages games n).games_used = min n games.length := by
    show (activeWindow games n).length = min n games.length
    exact length_activeWindow games n
  have hpos : 0 < games.length := List.length_pos.mpr h1
  refine ⟨?_, ?_, le_max_left 1 _⟩
  · omega
  · show (activeWindow ([] : List GameRecord) n).length = 0
    simp [activeWindow]

theorem games_used_amended_witness :
    ([⟨1, 2, 1, 2, 5, 3, 2, 1, 0, 2, 1⟩] : List GameRecord) ≠ [] ∧ 1 ≤ 10 ∧
    (1 ≤ (lastNAverages [⟨1, 2, 1, 2, 5, 3, 2, 1, 0, 2, 1⟩] 10).games_used ∧
     (lastNAverages ([] : List GameRecord) 10).games_used = 0 ∧
     1 ≤ max 1 (lastNAverages [⟨1, 2, 1, 2, 5, 3, 2, 1, 0, 2, 1⟩] 10).games_used) :=
  ⟨by decide, by decide,
   games_used_amended [⟨1, 2, 1, 2, 5, 3, 2, 1, 0, 2, 1⟩] 10 (by decide) (by decide)⟩

/-- Claim C9: single-player resolution returns an exact case-insensitive
full-name match when one exists among the candidates, otherwise the first
candidate, and fails with a not-found error exactly when the candidate list
is empty. -/
theorem resolve_single_spec (cands : List Player) (name : String) :
    (cands = [] →
      find_player_id cands name = .error ("No player found for " ++ name)) ∧
    ((∃ m ∈ cands, lowerStr m.full_name = lowerStr name) →
      ∃ m ∈ cands, lowerStr m.full_name = lowerStr name ∧
        find_player_id cands name = Except.ok m.id) ∧
    (∀ m0 rest, cands = m0 :: rest →
      (∀ m ∈ cands, lowerStr m.full_name ≠ lowerStr name) →
      find_player_id cands name = Except.ok m0.id) := by
  refine ⟨fun h => ?_, fun h => ?_, fun m0 rest hc hnone => ?_⟩
  · subst h; rfl
  · rcases h with ⟨m, hm, hmatch⟩
    cases cands with
    | nil => exact absurd hm (List.not_mem_nil m)
    | cons m0 rest =>
      have hsome :
          ((m0 :: rest).find? (fun x => lowerStr x.full_name == lowerStr name)).isSome := by
        rw [List.find?_isSome]
        exact ⟨m, hm, by simpa using hmatch⟩
      obtain ⟨m', hm'⟩ := Option.isSome_iff_exists.mp hsome
      refine ⟨m', List.mem_of_find?_eq_some hm', ?_, ?_⟩
      · have := List.find?_some hm'
        simpa using this
      · show (match (m0 :: rest).find? (fun x => lowerStr x.full_name == lowerStr name) with
              | some m => Except.ok m.id
              | none => Except.ok m0.id) = Except.ok m'.id
        rw [hm']
  · subst hc
    have hfind :
        (m0 :: rest).find? (fun x => lowerStr x.full_name == lowerStr name) = none := by
      rw [List.find?_eq_none]
      intro x hx
      simpa using hnone x hx
    show (match (m0 :: rest).find? (fun x => lowerStr x.full_name == lowerStr name) with
          | some m => Except.ok m.id
          | none => Except.ok m0.id) = Except.ok m0.id
    rw [hfind]

theorem resolve_single_spec_witness :
    (find_player_id [] "LeBron James" =
       .error ("No player found for " ++ "LeBron James")) ∧
    (∃ m ∈ ([⟨0, "Pau Gasol"⟩, ⟨23, "LeBron James"⟩] : List Player),
      lowerStr m.full_name = lowerStr "lebron james" ∧
        find_player_id [⟨0, "Pau Gasol"⟩, ⟨23, "LeBron James"⟩] "lebron james" =
          Except.ok m.id) ∧
    (find_player_id [⟨0, "Pau Gasol"⟩, ⟨23, "LeBron James"⟩] "Kobe Bryant" =
       Except.ok (0 : ℕ)) :=
  ⟨(resolve_single_spec [] "LeBron James").1 rfl,
   (resolve_single_spec [⟨0, "Pau Gasol"⟩, ⟨23, "LeBron James"⟩] "lebron james").2.1
     ⟨⟨23, "LeBron James"⟩, by decide, by decide⟩,
   (resolve_single_spec [⟨0, "Pau Gasol"⟩, ⟨23, "LeBron James"⟩] "Kobe Bryant").2.2
     ⟨0, "Pau Gasol"⟩ [⟨23, "LeBron James"⟩] rfl (by decide)⟩

/-- Claim C10: when the normalized-dict shape is unavailable, a raw-dict
result set with non-empty headers but an empty rowSet is rejected by the
raw-dict parser (it needs both headers and at least one row), so the
extraction falls through to the DataFrame fallback; if that also fails the
result is the unparseable-response error, not an empty game list. -/
theorem gamelog_empty_rowset_fallthrough (hdrs : List String) (hh : hdrs ≠ [])
    (df : List Row) :
    extract_gamelog_rows ⟨none, .asList [⟨hdrs, []⟩], none⟩ = .error unparseableMsg ∧
    extract_gamelog_rows ⟨none, .asList [⟨hdrs, []⟩], some [df]⟩ = .ok df ∧
    extract_gamelog_rows ⟨none, .asDict ⟨hdrs, []⟩, none⟩ = .error unparseableMsg ∧
    extract_gamelog_rows ⟨none, .asList [⟨hdrs, []⟩], none⟩ ≠
      .ok ([] : List Row) := by
  refine ⟨?_, ?_, ?_, ?_⟩ <;> simp [extract_gamelog_rows]

theorem gamelog_empty_rowset_fallthrough_witness :
    (["GAME_ID", "PTS"] : List String) ≠ [] ∧
    (extract_gamelog_rows ⟨none, .asList [⟨["GAME_ID", "PTS"], []⟩], none⟩ =
       .error unparseableMsg ∧
     extract_gamelog_rows ⟨none, .asList [⟨["GAME_ID", "PTS"], []⟩],
         some [[[("PTS", (31 : ℚ))]]]⟩ = .ok [[("PTS", (31 : ℚ))]] ∧
     extract_gamelog_rows ⟨none, .asDict ⟨["GAME_ID", "PTS"], []⟩, none⟩ =
       .error unparseableMsg ∧
     extract_gamelog_rows ⟨none, .asList [⟨["GAME_ID", "PTS"], []⟩], none⟩ ≠
       .ok ([] : List Row)) :=
  ⟨by decide,
   gamelog_empty_rowset_fallthrough ["GAME_ID", "PTS"] (by decide)
     [[("PTS", (31 : ℚ))]]⟩

end TradeEval
